import Mathlib

/-!
Verification of the Slack events webhook handler (`src/pages/api/slack/events.ts`)
of the ripre_qa_bot repository, as a shallow embedding in Lean 4.

Modelling conventions:
* JS values appearing in JSON positions are modelled by the `Json` inductive;
  `undefined` (absent property) is modelled by `Option Json` with `none`.
* JS truthiness is `jsTruthy` / `strTruthy`.
* Numbers are modelled as integers; fractional/exponent JSON literals are
  outside the model (floating point).
* Object property order is insertion order; the model assumes keys are not
  integer-like (JS enumerates integer-like keys first), which holds for every
  payload this handler touches.
* The external world (Dify HTTP outcome, Slack chat.postMessage outcomes) is a
  parameter `ExtWorld`; the handler is a pure function producing the ordered
  list of its observable actions (HTTP response, workflow-client invocations,
  chat-post invocations).
-/

set_option maxRecDepth 4000

/-- JSON values as produced by `JSON.parse`. -/
inductive Json where
  | null : Json
  | bool : Bool → Json
  | num : Int → Json
  | str : String → Json
  | arr : List Json → Json
  | obj : List (String × Json) → Json
deriving Repr

mutual

/-- Decidable equality on `Json` (written by hand: the nested inductive defeats
the automatic derivation). -/
def jsonDecEq : (a b : Json) → Decidable (a = b)
  | Json.null, Json.null => isTrue rfl
  | Json.null, Json.bool _ => isFalse (fun h => Json.noConfusion h)
  | Json.null, Json.num _ => isFalse (fun h => Json.noConfusion h)
  | Json.null, Json.str _ => isFalse (fun h => Json.noConfusion h)
  | Json.null, Json.arr _ => isFalse (fun h => Json.noConfusion h)
  | Json.null, Json.obj _ => isFalse (fun h => Json.noConfusion h)
  | Json.bool _, Json.null => isFalse (fun h => Json.noConfusion h)
  | Json.bool a, Json.bool b =>
    if h : a = b then isTrue (by rw [h]) else isFalse (fun he => h (by cases he; rfl))
  | Json.bool _, Json.num _ => isFalse (fun h => Json.noConfusion h)
  | Json.bool _, Json.str _ => isFalse (fun h => Json.noConfusion h)
  | Json.bool _, Json.arr _ => isFalse (fun h => Json.noConfusion h)
  | Json.bool _, Json.obj _ => isFalse (fun h => Json.noConfusion h)
  | Json.num _, Json.null => isFalse (fun h => Json.noConfusion h)
  | Json.num _, Json.bool _ => isFalse (fun h => Json.noConfusion h)
  | Json.num a, Json.num b =>
    if h : a = b then isTrue (by rw [h]) else isFalse (fun he => h (by cases he; rfl))
  | Json.num _, Json.str _ => isFalse (fun h => Json.noConfusion h)
  | Json.num _, Json.arr _ => isFalse (fun h => Json.noConfusion h)
  | Json.num _, Json.obj _ => isFalse (fun h => Json.noConfusion h)
  | Json.str _, Json.null => isFalse (fun h => Json.noConfusion h)
  | Json.str _, Json.bool _ => isFalse (fun h => Json.noConfusion h)
  | Json.str _, Json.num _ => isFalse (fun h => Json.noConfusion h)
  | Json.str a, Json.str b =>
    if h : a = b then isTrue (by rw [h]) else isFalse (fun he => h (by cases he; rfl))
  | Json.str _, Json.arr _ => isFalse (fun h => Json.noConfusion h)
  | Json.str _, Json.obj _ => isFalse (fun h => Json.noConfusion h)
  | Json.arr _, Json.null => isFalse (fun h => Json.noConfusion h)
  | Json.arr _, Json.bool _ => isFalse (fun h => Json.noConfusion h)
  | Json.arr _, Json.num _ => isFalse (fun h => Json.noConfusion h)
  | Json.arr _, Json.str _ => isFalse (fun h => Json.noConfusion h)
  | Json.arr xs, Json.arr ys =>
    match jsonListDecEq xs ys with
    | isTrue h => isTrue (by rw [h])
    | isFalse h => isFalse (fun he => h (by cases he; rfl))
  | Json.arr _, Json.obj _ => isFalse (fun h => Json.noConfusion h)
  | Json.obj _, Json.null => isFalse (fun h => Json.noConfusion h)
  | Json.obj _, Json.bool _ => isFalse (fun h => Json.noConfusion h)
  | Json.obj _, Json.num _ => isFalse (fun h => Json.noConfusion h)
  | Json.obj _, Json.str _ => isFalse (fun h => Json.noConfusion h)
  | Json.obj _, Json.arr _ => isFalse (fun h => Json.noConfusion h)
  | Json.obj fs, Json.obj gs =>
    match jsonFieldsDecEq fs gs with
    | isTrue h => isTrue (by rw [h])
    | isFalse h => isFalse (fun he => h (by cases he; rfl))

/-- Decidable equality on lists of `Json`. -/
def jsonListDecEq : (a b : List Json) → Decidable (a = b)
  | [], [] => isTrue rfl
  | [], _ :: _ => isFalse (fun h => List.noConfusion h)
  | _ :: _, [] => isFalse (fun h => List.noConfusion h)
  | x :: xs, y :: ys =>
    match jsonDecEq x y with
    | isFalse h => isFalse (fun he => h (by cases he; rfl))
    | isTrue h1 =>
      match jsonListDecEq xs ys with
      | isTrue h2 => isTrue (by rw [h1, h2])
      | isFalse h2 => isFalse (fun he => h2 (by cases he; rfl))

/-- Decidable equality on `Json` object field lists. -/
def jsonFieldsDecEq : (a b : List (String × Json)) → Decidable (a = b)
  | [], [] => isTrue rfl
  | [], _ :: _ => isFalse (fun h => List.noConfusion h)
  | _ :: _, [] => isFalse (fun h => List.noConfusion h)
  | (k, v) :: xs, (k2, v2) :: ys =>
    if hk : k = k2 then
      match jsonDecEq v v2 with
      | isFalse h => isFalse (fun he => h (by cases he; rfl))
      | isTrue hv =>
        match jsonFieldsDecEq xs ys with
        | isTrue h2 => isTrue (by rw [hk, hv, h2])
        | isFalse h2 => isFalse (fun he => h2 (by cases he; rfl))
    else isFalse (fun he => hk (by cases he; rfl))

end

instance : DecidableEq Json := jsonDecEq

/-- Property lookup in an object field list (first match; the JSON parser keeps
keys unique, mirroring JS object semantics). -/
def lookupField : List (String × Json) → String → Option Json
  | [], _ => none
  | (k, v) :: rest, key => if k = key then some v else lookupField rest key

/-- JS property access `j.key`: `none` models `undefined`.  Accessing a named
(non-index) property of a primitive or an array yields `undefined`. -/
def jsField : Json → String → Option Json
  | Json.obj fs, k => lookupField fs k
  | _, _ => none

/-- JS property access through a possibly-`undefined` value that is known
truthy at the call site. -/
def jsFieldOpt : Option Json → String → Option Json
  | some j, k => jsField j k
  | none, _ => none

/-- JS truthiness of a JSON value. -/
def jsTruthy : Json → Bool
  | Json.null => false
  | Json.bool b => b
  | Json.num n => decide (n ≠ 0)
  | Json.str s => decide (s ≠ "")
  | Json.arr _ => true
  | Json.obj _ => true

/-- JS truthiness of a possibly-`undefined` value. -/
def optTruthy : Option Json → Bool
  | none => false
  | some j => jsTruthy j

/-- JS `a || b` on possibly-undefined values: first operand if truthy, else
the second. -/
def jsOr (a b : Option Json) : Option Json :=
  if optTruthy a then a else b

/-- JS truthiness of `process.env` entries and header values
(`string | undefined`): absent or empty is falsy. -/
def strTruthy : Option String → Bool
  | none => false
  | some s => decide (s ≠ "")

/-- Hex digit for `JSON.stringify` control-character escapes (lowercase). -/
def hexDigitChar (n : Nat) : Char :=
  if n < 10 then Char.ofNat (48 + n) else Char.ofNat (87 + (n % 16))

/-- `JSON.stringify` escaping of one character inside a string literal. -/
def escapeJsonChar (c : Char) : List Char :=
  if c = '"' then ['\\', '"']
  else if c = '\\' then ['\\', '\\']
  else if c = '\x08' then ['\\', 'b']
  else if c = '\x0c' then ['\\', 'f']
  else if c = '\n' then ['\\', 'n']
  else if c = '\r' then ['\\', 'r']
  else if c = '\t' then ['\\', 't']
  else if c.toNat < 32 then
    ['\\', 'u', '0', '0', hexDigitChar (c.toNat / 16), hexDigitChar (c.toNat % 16)]
  else [c]

/-- `JSON.stringify` rendering of a string literal, quotes included. -/
def quoteJson (s : String) : String :=
  String.mk ('"' :: s.toList.flatMap escapeJsonChar ++ ['"'])

mutual

/-- Compact `JSON.stringify(j)` (no spacing), as used at lines 174, 184 and
195 of `events.ts`. -/
def stringifyCompact : Json → String
  | Json.null => "null"
  | Json.bool true => "true"
  | Json.bool false => "false"
  | Json.num n => toString n
  | Json.str s => quoteJson s
  | Json.arr xs => "[" ++ stringifyArr xs ++ "]"
  | Json.obj fs => "\x7b" ++ stringifyObj fs ++ "\x7d"

/-- Comma-joined compact rendering of array elements. -/
def stringifyArr : List Json → String
  | [] => ""
  | [x] => stringifyCompact x
  | x :: y :: rest => stringifyCompact x ++ "," ++ stringifyArr (y :: rest)

/-- Comma-joined compact rendering of object fields. -/
def stringifyObj : List (String × Json) → String
  | [] => ""
  | [(k, v)] => quoteJson k ++ ":" ++ stringifyCompact v
  | (k, v) :: f :: rest =>
    quoteJson k ++ ":" ++ stringifyCompact v ++ "," ++ stringifyObj (f :: rest)

end

/-- `depth`-level indentation (two spaces per level) of
`JSON.stringify(j, null, 2)`. -/
def indentStr (depth : Nat) : String := String.mk (List.replicate (2 * depth) ' ')

mutual

/-- Pretty `JSON.stringify(j, null, 2)` at nesting depth `depth`, as used for
the final fallback at line 200 of `events.ts`. -/
def stringifyPrettyAt (depth : Nat) : Json → String
  | Json.null => "null"
  | Json.bool true => "true"
  | Json.bool false => "false"
  | Json.num n => toString n
  | Json.str s => quoteJson s
  | Json.arr [] => "[]"
  | Json.arr (x :: xs) =>
    "[\n" ++ prettyArrItems depth (x :: xs) ++ "\n" ++ indentStr depth ++ "]"
  | Json.obj [] => "\x7b\x7d"
  | Json.obj (f :: fs) =>
    "\x7b\n" ++ prettyObjItems depth (f :: fs) ++ "\n" ++ indentStr depth ++ "\x7d"

/-- Pretty-printed array items, one per line, comma-joined. -/
def prettyArrItems (depth : Nat) : List Json → String
  | [] => ""
  | [x] => indentStr (depth + 1) ++ stringifyPrettyAt (depth + 1) x
  | x :: y :: rest =>
    indentStr (depth + 1) ++ stringifyPrettyAt (depth + 1) x ++ ",\n" ++
      prettyArrItems depth (y :: rest)

/-- Pretty-printed object fields, one per line, comma-joined. -/
def prettyObjItems (depth : Nat) : List (String × Json) → String
  | [] => ""
  | [(k, v)] => indentStr (depth + 1) ++ quoteJson k ++ ": " ++ stringifyPrettyAt (depth + 1) v
  | (k, v) :: f :: rest =>
    indentStr (depth + 1) ++ quoteJson k ++ ": " ++ stringifyPrettyAt (depth + 1) v ++ ",\n" ++
      prettyObjItems depth (f :: rest)

end

/-- Top-level `JSON.stringify(j, null, 2)`. -/
def stringifyPretty (j : Json) : String := stringifyPrettyAt 0 j

/-! ## Workflow-answer extraction (`callDifyWorkflow`, events.ts lines 159-200) -/

/-- A character JS `String.prototype.trim` removes (ASCII whitespace, NBSP,
BOM and the Unicode line separators; the rarer Unicode space separators are
outside the model and unreachable here). -/
def isJsSpace (c : Char) : Bool :=
  c = ' ' || c = '\t' || c = '\n' || c = '\r' || c = '\x0b' || c = '\x0c' ||
    c = '\xa0' || c = '\uFEFF' || c = '\u2028' || c = '\u2029'

/-- JS `s.trim()`: remove leading and trailing whitespace. -/
def jsTrim (s : String) : String :=
  String.mk (((s.data.dropWhile isJsSpace).reverse.dropWhile isJsSpace).reverse)

/-- Values enumerated by JS `for (const key in outputs)` in order, as read by
`outputs[key]` (events.ts line 177).  Objects yield their field values in
insertion order (the model assumes non-integer-like keys); arrays yield their
elements; strings yield their characters as one-character strings; other
primitives have no enumerable properties. -/
def jsForIn : Json → List Json
  | Json.obj fs => fs.map Prod.snd
  | Json.arr xs => xs
  | Json.str s => s.toList.map (fun c => Json.str (String.singleton c))
  | _ => []

/-- The for-loop of events.ts lines 177-182: the first enumerated value that is
a string with non-blank trim. -/
def firstNonBlankStr : List Json → Option String
  | [] => none
  | Json.str s :: rest => if jsTrim s ≠ "" then some s else firstNonBlankStr rest
  | _ :: rest => firstNonBlankStr rest

/-- events.ts lines 168-184: extraction from a truthy `data.data.outputs`.
`outputs.answer || outputs.text || outputs.result || outputs.output`, then the
first non-blank string-valued field, then `JSON.stringify(outputs)`. -/
def fromOutputs (outs : Json) : Json :=
  let answer := jsOr (jsOr (jsOr (jsField outs "answer") (jsField outs "text"))
    (jsField outs "result")) (jsField outs "output")
  match answer with
  | some a =>
    if jsTruthy a then
      match a with
      | Json.str s => Json.str s
      | _ => Json.str (stringifyCompact a)
    else
      match firstNonBlankStr (jsForIn outs) with
      | some s => Json.str s
      | none => Json.str (stringifyCompact outs)
  | none =>
    match firstNonBlankStr (jsForIn outs) with
    | some s => Json.str s
    | none => Json.str (stringifyCompact outs)

/-- events.ts lines 193-200: `if (data.output) ...` then the pretty-printed
fallback `JSON.stringify(data, null, 2)`. -/
def outputOrFallback (data : Json) : Json :=
  match jsField data "output" with
  | some o =>
    if jsTruthy o then
      match o with
      | Json.str s => Json.str s
      | _ => Json.str (stringifyCompact o)
    else Json.str (stringifyPretty data)
  | none => Json.str (stringifyPretty data)

/-- events.ts lines 186-191: `if (typeof data.data === 'string') return
data.data;` else fall through. -/
def dataStringBranch (data dd : Json) : Json :=
  match dd with
  | Json.str s => Json.str s
  | _ => outputOrFallback data

/-- events.ts lines 165-192, inside `if (data.data)` with `dd = data.data`
truthy: the `outputs` branch, then the plain-string branch, then (after a
`console.warn`) fall-through to the `data.output` check. -/
def dataBranch (data dd : Json) : Json :=
  match jsField dd "outputs" with
  | some o => if jsTruthy o then fromOutputs o else dataStringBranch data dd
  | none => dataStringBranch data dd

/-- events.ts lines 161-200 with the `data.answer` branch already rejected:
try `data.data`, then `data.output`, then the stringified fallback. -/
def afterAnswer (data : Json) : Json :=
  match jsField data "data" with
  | some dd => if jsTruthy dd then dataBranch data dd else outputOrFallback data
  | none => outputOrFallback data

/-- The full answer extraction of `callDifyWorkflow` (events.ts lines 159-200)
applied to the parsed Dify response body.  `if (data.answer) return
data.answer;` then `afterAnswer`.  The result is a JSON value because a truthy
non-string `data.answer` is returned unconverted. -/
def extractAnswer (data : Json) : Json :=
  match jsField data "answer" with
  | some a => if jsTruthy a then a else afterAnswer data
  | none => afterAnswer data

/-! ## `JSON.parse` (handler line 265)

A strict JSON reader.  Model limitations, none of which is reachable by the
claims: fractional or exponent number literals are rejected (floating point is
outside the model) and `\uXXXX` escapes denoting surrogate halves map to the
null character. -/

/-- Skip JSON insignificant whitespace (space, tab, LF, CR). -/
def skipWs : List Char → List Char
  | c :: cs =>
    if c = ' ' ∨ c = '\t' ∨ c = '\n' ∨ c = '\r' then skipWs cs else c :: cs
  | [] => []

/-- Value of a hex digit, if any. -/
def hexVal (c : Char) : Option Nat :=
  if '0' ≤ c ∧ c ≤ '9' then some (c.toNat - 48)
  else if 'a' ≤ c ∧ c ≤ 'f' then some (c.toNat - 87)
  else if 'A' ≤ c ∧ c ≤ 'F' then some (c.toNat - 70)
  else none

/-- Insert a field into an object under construction, JS-style: a duplicate
key keeps its original position but takes the later value. -/
def insertField : List (String × Json) → String → Json → List (String × Json)
  | [], k, v => [(k, v)]
  | (k0, v0) :: rest, k, v =>
    if k0 = k then (k0, v) :: rest else (k0, v0) :: insertField rest k v

/-- Read the body of a JSON string literal after the opening quote; `acc` holds
the chars read so far, reversed.  Returns the string and the rest of the
input. -/
def readStrChars : List Char → List Char → Option (String × List Char)
  | [], _ => none
  | c :: cs, acc =>
    if c = '"' then some (String.mk acc.reverse, cs)
    else if c = '\\' then
      match cs with
      | [] => none
      | e :: cs2 =>
        if e = '"' then readStrChars cs2 ('"' :: acc)
        else if e = '\\' then readStrChars cs2 ('\\' :: acc)
        else if e = '/' then readStrChars cs2 ('/' :: acc)
        else if e = 'b' then readStrChars cs2 ('\x08' :: acc)
        else if e = 'f' then readStrChars cs2 ('\x0c' :: acc)
        else if e = 'n' then readStrChars cs2 ('\n' :: acc)
        else if e = 'r' then readStrChars cs2 ('\r' :: acc)
        else if e = 't' then readStrChars cs2 ('\t' :: acc)
        else if e = 'u' then
          match cs2 with
          | h1 :: h2 :: h3 :: h4 :: cs3 =>
            match hexVal h1, hexVal h2, hexVal h3, hexVal h4 with
            | some a, some b, some c1, some d =>
              readStrChars cs3 (Char.ofNat (((a * 16 + b) * 16 + c1) * 16 + d) :: acc)
            | _, _, _, _ => none
          | _ => none
        else none
    else if c.toNat < 32 then none
    else readStrChars cs (c :: acc)
termination_by structural cs _ => cs

/-- Digit run to a `Nat`. -/
def digitsToNat (ds : List Char) : Nat :=
  ds.foldl (fun a c => a * 10 + (c.toNat - 48)) 0

/-- Read a JSON number literal (integer literals only; see module note). -/
def readNum (cs : List Char) : Option (Json × List Char) :=
  let (neg, cs1) :=
    match cs with
    | '-' :: r => (true, r)
    | _ => (false, cs)
  match cs1 with
  | c :: _ =>
    if c.isDigit then
      let ds := cs1.takeWhile Char.isDigit
      let rest := cs1.dropWhile Char.isDigit
      if ds.length > 1 ∧ ds.headD '0' = '0' then none
      else
        match rest with
        | '.' :: _ => none
        | 'e' :: _ => none
        | 'E' :: _ => none
        | _ =>
          let n : Int := Int.ofNat (digitsToNat ds)
          some (Json.num (if neg then -n else n), rest)
    else none
  | [] => none

mutual

/-- Read one JSON value; `fuel` bounds the recursion depth (always sufficient
at the top-level entry point). -/
def readVal : Nat → List Char → Option (Json × List Char)
  | 0, _ => none
  | Nat.succ fuel, cs =>
    match skipWs cs with
    | [] => none
    | c :: cs1 =>
      if c = '"' then
        match readStrChars cs1 [] with
        | some (s, rest) => some (Json.str s, rest)
        | none => none
      else if c.toNat = 123 then -- opening brace
        match skipWs cs1 with
        | c2 :: cs2 =>
          if c2.toNat = 125 then some (Json.obj [], cs2) -- closing brace
          else readObjFields fuel [] (c2 :: cs2)
        | [] => none
      else if c = '[' then
        match skipWs cs1 with
        | c2 :: cs2 =>
          if c2 = ']' then some (Json.arr [], cs2)
          else readArrItems fuel [] (c2 :: cs2)
        | [] => none
      else
        match c :: cs1 with
        | 't' :: 'r' :: 'u' :: 'e' :: rest => some (Json.bool true, rest)
        | 'f' :: 'a' :: 'l' :: 's' :: 'e' :: rest => some (Json.bool false, rest)
        | 'n' :: 'u' :: 'l' :: 'l' :: rest => some (Json.null, rest)
        | rest => readNum rest
termination_by structural fuel _ => fuel

/-- Read object members starting at a key, accumulating into `acc`. -/
def readObjFields : Nat → List (String × Json) → List Char → Option (Json × List Char)
  | 0, _, _ => none
  | Nat.succ fuel, acc, cs =>
    match skipWs cs with
    | '"' :: cs1 =>
      match readStrChars cs1 [] with
      | some (k, cs2) =>
        match skipWs cs2 with
        | ':' :: cs3 =>
          match readVal fuel cs3 with
          | some (v, cs4) =>
            match skipWs cs4 with
            | ',' :: cs5 => readObjFields fuel (insertField acc k v) cs5
            | c :: cs5 =>
              if c.toNat = 125 then some (Json.obj (insertField acc k v), cs5)
              else none
            | [] => none
          | none => none
        | _ => none
      | none => none
    | _ => none
termination_by structural fuel _ _ => fuel

/-- Read array elements, accumulating into `acc` (reversed). -/
def readArrItems : Nat → List Json → List Char → Option (Json × List Char)
  | 0, _, _ => none
  | Nat.succ fuel, acc, cs =>
    match readVal fuel cs with
    | some (v, cs1) =>
      match skipWs cs1 with
      | ',' :: cs2 => readArrItems fuel (v :: acc) cs2
      | ']' :: cs2 => some (Json.arr (v :: acc).reverse, cs2)
      | _ => none
    | none => none
termination_by structural fuel _ _ => fuel

end

/-- `JSON.parse(rawBody)` (events.ts line 265): `none` models a thrown
`SyntaxError`. -/
def parseJson (s : String) : Option Json :=
  let cs := s.toList
  match readVal (2 * cs.length + 8) cs with
  | some (j, rest) => if skipWs rest = [] then some j else none
  | none => none

/-! ## SHA-256 and HMAC-SHA256

`crypto.createHmac('sha256', secret).update(basestring, 'utf8').digest('hex')`
(events.ts lines 297-299), embedded from the FIPS 180-4 / RFC 2104 algorithms
the Node `crypto` module implements.  Bytes and 32-bit words are `Nat`s kept
below 2^8 / 2^32 by explicit masking. -/

/-- UTF-8 encoding of one scalar value. -/
def utf8EncodeCharNat (c : Char) : List Nat :=
  let n := c.toNat
  if n < 128 then [n]
  else if n < 2048 then [192 + n / 64, 128 + n % 64]
  else if n < 65536 then [224 + n / 4096, 128 + n / 64 % 64, 128 + n % 64]
  else [240 + n / 262144, 128 + n / 4096 % 64, 128 + n / 64 % 64, 128 + n % 64]

/-- UTF-8 bytes of a string (`update(..., 'utf8')`). -/
def utf8Bytes (s : String) : List Nat :=
  s.toList.flatMap utf8EncodeCharNat

/-- Addition modulo 2^32. -/
def wadd (a b : Nat) : Nat := (a + b) % 4294967296

/-- Bitwise complement on 32-bit words. -/
def wnot (a : Nat) : Nat := Nat.xor a 4294967295

/-- Right rotation of a 32-bit word by `n` places. -/
def rotr (n x : Nat) : Nat :=
  Nat.lor (Nat.shiftRight x n) (Nat.land (Nat.shiftLeft x (32 - n)) 4294967295)

/-- SHA-256 `Ch(x,y,z)`. -/
def shaCh (x y z : Nat) : Nat := Nat.xor (Nat.land x y) (Nat.land (wnot x) z)

/-- SHA-256 `Maj(x,y,z)`. -/
def shaMaj (x y z : Nat) : Nat :=
  Nat.xor (Nat.xor (Nat.land x y) (Nat.land x z)) (Nat.land y z)

/-- SHA-256 `Σ0`. -/
def bigSigma0 (x : Nat) : Nat := Nat.xor (Nat.xor (rotr 2 x) (rotr 13 x)) (rotr 22 x)

/-- SHA-256 `Σ1`. -/
def bigSigma1 (x : Nat) : Nat := Nat.xor (Nat.xor (rotr 6 x) (rotr 11 x)) (rotr 25 x)

/-- SHA-256 `σ0`. -/
def smallSigma0 (x : Nat) : Nat :=
  Nat.xor (Nat.xor (rotr 7 x) (rotr 18 x)) (Nat.shiftRight x 3)

/-- SHA-256 `σ1`. -/
def smallSigma1 (x : Nat) : Nat :=
  Nat.xor (Nat.xor (rotr 17 x) (rotr 19 x)) (Nat.shiftRight x 10)

/-- The SHA-256 round constants (decimal renderings of the FIPS 180-4
words). -/
def shaK : List Nat :=
  [1116352408, 1899447441, 3049323471, 3921009573,
   961987163, 1508970993, 2453635748, 2870763221,
   3624381080, 310598401, 607225278, 1426881987,
   1925078388, 2162078206, 2614888103, 3248222580,
   3835390401, 4022224774, 264347078, 604807628,
   770255983, 1249150122, 1555081692, 1996064986,
   2554220882, 2821834349, 2952996808, 3210313671,
   3336571891, 3584528711, 113926993, 338241895,
   666307205, 773529912, 1294757372, 1396182291,
   1695183700, 1986661051, 2177026350, 2456956037,
   2730485921, 2820302411, 3259730800, 3345764771,
   3516065817, 3600352804, 4094571909, 275423344,
   430227734, 506948616, 659060556, 883997877,
   958139571, 1322822218, 1537002063, 1747873779,
   1955562222, 2024104815, 2227730452, 2361852424,
   2428436474, 2756734187, 3204031479, 3329325298]

/-- The SHA-256 working state: eight 32-bit words. -/
structure Sha256State where
  a : Nat
  b : Nat
  c : Nat
  d : Nat
  e : Nat
  f : Nat
  g : Nat
  h : Nat
deriving DecidableEq, Repr

/-- The SHA-256 initial hash value (decimal renderings of the FIPS 180-4
words). -/
def shaInit : Sha256State :=
  ⟨1779033703, 3144134277, 1013904242, 2773480762,
   1359893119, 2600822924, 528734635, 1541459225⟩

/-- Extend the 16-word block to the full 64-word message schedule
(`n` remaining extension steps). -/
def extendSchedule : Nat → List Nat → List Nat
  | 0, w => w
  | Nat.succ n, w =>
    let i := w.length
    extendSchedule n (w ++ [wadd (wadd (smallSigma1 (w.getD (i - 2) 0)) (w.getD (i - 7) 0))
      (wadd (smallSigma0 (w.getD (i - 15) 0)) (w.getD (i - 16) 0))])

/-- One SHA-256 compression round; `kw` is `K[i] + W[i] mod 2^32`. -/
def shaRound (st : Sha256State) (kw : Nat) : Sha256State :=
  let t1 := wadd (wadd st.h (bigSigma1 st.e)) (wadd (shaCh st.e st.f st.g) kw)
  let t2 := wadd (bigSigma0 st.a) (shaMaj st.a st.b st.c)
  ⟨wadd t1 t2, st.a, st.b, st.c, wadd st.d t1, st.e, st.f, st.g⟩

/-- Process one 512-bit block (given as 16 words) into the chaining state. -/
def compressBlock (st : Sha256State) (block : List Nat) : Sha256State :=
  let w := extendSchedule 48 block
  let r := (w.zip shaK).foldl (fun s p => shaRound s (wadd p.1 p.2)) st
  ⟨wadd st.a r.a, wadd st.b r.b, wadd st.c r.c, wadd st.d r.d,
   wadd st.e r.e, wadd st.f r.f, wadd st.g r.g, wadd st.h r.h⟩

/-- Four big-endian bytes of a 32-bit word. -/
def wordBytes (w : Nat) : List Nat :=
  [w / 16777216 % 256, w / 65536 % 256, w / 256 % 256, w % 256]

/-- Big-endian 4-byte group of a byte stream into 32-bit words. -/
def bytesToWords : List Nat → List Nat
  | b0 :: b1 :: b2 :: b3 :: rest =>
    (((b0 * 256 + b1) * 256 + b2) * 256 + b3) :: bytesToWords rest
  | _ => []

/-- Eight big-endian bytes of the 64-bit message bit length. -/
def lengthBytes (n : Nat) : List Nat :=
  [n / 72057594037927936 % 256, n / 281474976710656 % 256,
   n / 1099511627776 % 256, n / 4294967296 % 256,
   n / 16777216 % 256, n / 65536 % 256, n / 256 % 256, n % 256]

/-- SHA-256 padding: `0x80`, zeros to 56 mod 64, then the bit length. -/
def padMessage (msg : List Nat) : List Nat :=
  let len := msg.length
  msg ++ 128 :: List.replicate ((119 - len % 64) % 64) 0 ++ lengthBytes (len * 8)

/-- Split a byte stream into 64-byte blocks of 16 words each; `fuel` bounds the
number of blocks. -/
def toBlocks : Nat → List Nat → List (List Nat)
  | 0, _ => []
  | Nat.succ _, [] => []
  | Nat.succ n, b :: bs =>
    bytesToWords ((b :: bs).take 64) :: toBlocks n ((b :: bs).drop 64)

/-- The SHA-256 chaining state after absorbing a whole (byte-level) message. -/
def sha256StateOf (msg : List Nat) : Sha256State :=
  let padded := padMessage msg
  (toBlocks (padded.length / 64 + 1) padded).foldl compressBlock shaInit

/-- SHA-256 digest bytes of a byte-level message. -/
def sha256 (msg : List Nat) : List Nat :=
  let st := sha256StateOf msg
  wordBytes st.a ++ wordBytes st.b ++ wordBytes st.c ++ wordBytes st.d ++
    wordBytes st.e ++ wordBytes st.f ++ wordBytes st.g ++ wordBytes st.h

/-- The HMAC-SHA256 input of the outer hash (RFC 2104): the padded key xored
with `opad`, followed by the inner digest. -/
def hmacOuterInput (key msg : List Nat) : List Nat :=
  let key0 := if key.length > 64 then sha256 key else key
  let keyP := key0 ++ List.replicate (64 - key0.length) 0
  keyP.map (fun b => Nat.xor b 92) ++ sha256 (keyP.map (fun b => Nat.xor b 54) ++ msg)

/-- HMAC-SHA256 digest bytes. -/
def hmacSha256 (key msg : List Nat) : List Nat :=
  sha256 (hmacOuterInput key msg)

/-- Eight lowercase hex characters of one 32-bit word. -/
def wordHexChars (w : Nat) : List Char :=
  [hexDigitChar (w / 268435456 % 16), hexDigitChar (w / 16777216 % 16),
   hexDigitChar (w / 1048576 % 16), hexDigitChar (w / 65536 % 16),
   hexDigitChar (w / 4096 % 16), hexDigitChar (w / 256 % 16),
   hexDigitChar (w / 16 % 16), hexDigitChar (w % 16)]

/-- Lowercase hex rendering of a chaining state (`digest('hex')`). -/
def stateHex (st : Sha256State) : String :=
  String.mk (wordHexChars st.a ++ wordHexChars st.b ++ wordHexChars st.c ++
    wordHexChars st.d ++ wordHexChars st.e ++ wordHexChars st.f ++
    wordHexChars st.g ++ wordHexChars st.h)

/-- The chaining state whose rendering is the HMAC-SHA256 hex digest of
`msg` under `key` (both UTF-8 strings). -/
def hmacStateOf (key msg : String) : Sha256State :=
  sha256StateOf (hmacOuterInput (utf8Bytes key) (utf8Bytes msg))

/-- `crypto.createHmac('sha256', key).update(msg, 'utf8').digest('hex')`. -/
def hmacSha256Hex (key msg : String) : String :=
  stateHex (hmacStateOf key msg)

/-- The signature the handler computes at events.ts lines 297-299:
`'v0=' + HMAC-SHA256(secret, 'v0:' + timestamp + ':' + rawBody) in hex`. -/
def computeSlackSignature (secret timestamp rawBody : String) : String :=
  "v0=" ++ hmacSha256Hex secret ("v0:" ++ timestamp ++ ":" ++ rawBody)

/-! ## Environment, external world, and observable actions -/

/-- The `process.env` entries the handler reads.  A JS environment variable is
`string | undefined`; an empty string is falsy wherever the code tests it. -/
structure EnvConfig where
  slackSigningSecret : Option String
  slackBotToken : Option String
  difyApiUrl : Option String
  difyApiKey : Option String
  difyWorkflowId : Option String
  difyApiVersion : Option String
deriving Repr

/-- Outcome of the `fetch` to the Dify workflow endpoint
(events.ts lines 95-150).  `timeout` is the `AbortError` path with the
measured elapsed milliseconds; `fetchErr` is any other rejection with the
error's message; `httpErr` is a non-2xx response with status, status text and
body text; `ok` is a 2xx response with its parsed JSON body. -/
inductive DifyOutcome where
  | timeout : Nat → DifyOutcome
  | fetchErr : String → DifyOutcome
  | httpErr : Nat → String → String → DifyOutcome
  | ok : Json → DifyOutcome
deriving Repr

/-- Outcome of one `fetch` to `chat.postMessage` (events.ts lines 228-245):
a rejection with the error's message, a non-2xx response with status and body
text, or a 2xx response with its parsed JSON body. -/
inductive SlackOutcome where
  | fetchErr : String → SlackOutcome
  | httpErr : Nat → String → SlackOutcome
  | ok : Json → SlackOutcome
deriving Repr

/-- The external world: the outcome of the (single) Dify call, the outcomes of
the successive `chat.postMessage` calls (indexed by invocation order), and the
engine-determined message of the `TypeError` thrown if `event.text` is not a
string (never reached by the claims). -/
structure ExtWorld where
  dify : DifyOutcome
  slackResults : Nat → SlackOutcome
  textTypeErrorMsg : String

/-- The body of an HTTP response the handler sends: `res.json` of an error
object, `res.send(value)` or `res.end()`. -/
inductive RespBody where
  | jsonErr : String → RespBody
  | send : Json → RespBody
  | empty : RespBody
deriving DecidableEq, Repr

/-- One observable step of the handler, in chronological order: the HTTP
response it sends, an invocation of `callDifyWorkflow` with its argument, or
an invocation of `postSlackMessage` with its arguments
(channel, text, thread timestamp — the latter two as the JS values passed). -/
inductive BotAction where
  | respond : Nat → RespBody → BotAction
  | difyCall : String → BotAction
  | slackPost : Option Json → Json → Option Json → BotAction
deriving DecidableEq, Repr

/-! ## Outbound clients (`callDifyWorkflow`, `postSlackMessage`) -/

mutual

/-- JS template-literal rendering of a possibly-undefined JSON value, as in
the `data.error` interpolation at events.ts line 244. -/
def jsDisplay : Option Json → String
  | none => "undefined"
  | some Json.null => "null"
  | some (Json.bool true) => "true"
  | some (Json.bool false) => "false"
  | some (Json.num n) => toString n
  | some (Json.str s) => s
  | some (Json.arr xs) => jsDisplayItems xs
  | some (Json.obj _) => "[object Object]"

/-- `Array.prototype.toString`: comma-joined elements, `null` rendering
empty. -/
def jsDisplayItems : List Json → String
  | [] => ""
  | [Json.null] => ""
  | [x] => jsDisplay (some x)
  | Json.null :: y :: rest => "," ++ jsDisplayItems (y :: rest)
  | x :: y :: rest => jsDisplay (some x) ++ "," ++ jsDisplayItems (y :: rest)

end

/-- The regex test of events.ts line 61 (a trailing `/v` followed by one or
more digits). -/
def endsInVersion (s : String) : Bool :=
  let r := s.data.reverse
  decide (r.takeWhile Char.isDigit ≠ []) &&
    match r.dropWhile Char.isDigit with
    | 'v' :: '/' :: _ => true
    | _ => false

/-- events.ts lines 53-71: the Dify endpoint URL — trim the base URL, drop one
trailing slash, and insert the version segment (`DIFY_API_VERSION`, default
`v1`) unless the base URL already ends in one.  The model's `ExtWorld.dify` is
the outcome of the `fetch` POSTed to this URL. -/
def difyEndpoint (env : EnvConfig) : String :=
  let baseUrl := jsTrim (env.difyApiUrl.getD "")
  let baseUrl :=
    match baseUrl.data.reverse with
    | '/' :: more => String.mk more.reverse
    | _ => baseUrl
  let workflowId := env.difyWorkflowId.getD ""
  if endsInVersion baseUrl then
    baseUrl ++ "/workflows/" ++ workflowId ++ "/run"
  else
    let apiVersion := if strTruthy env.difyApiVersion then env.difyApiVersion.getD "" else "v1"
    baseUrl ++ "/" ++ apiVersion ++ "/workflows/" ++ workflowId ++ "/run"

/-- events.ts lines 33-36: the missing Dify environment variables, in check
order. -/
def missingDifyVars (env : EnvConfig) : List String :=
  (if strTruthy env.difyApiUrl then [] else ["DIFY_API_URL"]) ++
    (if strTruthy env.difyApiKey then [] else ["DIFY_API_KEY"]) ++
    (if strTruthy env.difyWorkflowId then [] else ["DIFY_WORKFLOW_ID"])

set_option linter.unusedVariables false in
/-- `callDifyWorkflow` (events.ts lines 27-201) as a result value: an
`Except.error` carries the message of the `Error` the function throws.  The
network outcome of the single `fetch` to `difyEndpoint env` is `w.dify`; on a
2xx outcome the parsed body goes through `extractAnswer`.  (`userInput` only
feeds the request body, which the network model absorbs.) -/
def callDifyWorkflow (env : EnvConfig) (w : ExtWorld) (userInput : String) : Except String Json :=
  let missing := missingDifyVars env
  if missing ≠ [] then
    Except.error ("Dify configuration is missing. Missing environment variables: " ++
      String.intercalate ", " missing)
  else
    match w.dify with
    | DifyOutcome.timeout elapsed =>
      Except.error ("Dify API request timeout after " ++ toString elapsed ++ "ms (30s limit)")
    | DifyOutcome.fetchErr m =>
      Except.error ("Failed to call Dify API: " ++ m)
    | DifyOutcome.httpErr status statusText errText =>
      Except.error ("Dify API error: " ++ toString status ++ " " ++ statusText ++ " - " ++ errText)
    | DifyOutcome.ok data => Except.ok (extractAnswer data)

/-- `postSlackMessage` (events.ts lines 204-246) as a result value, given the
network outcome of its `chat.postMessage` fetch: missing bot token throws,
a non-2xx response throws with status and body text, and a 2xx response with a
falsy `ok` field throws with the payload's `error` value. -/
def postSlackResult (env : EnvConfig) (outcome : SlackOutcome) : Except String Unit :=
  if strTruthy env.slackBotToken = false then
    Except.error "SLACK_BOT_TOKEN is not set"
  else
    match outcome with
    | SlackOutcome.fetchErr m => Except.error m
    | SlackOutcome.httpErr status errText =>
      Except.error ("Slack API error: " ++ toString status ++ " - " ++ errText)
    | SlackOutcome.ok data =>
      if optTruthy (jsField data "ok") then Except.ok ()
      else Except.error ("Slack API error: " ++ jsDisplay (jsField data "error"))

/-! ## The reply pipeline (events.ts lines 339-411) -/

/-- A character the mention pattern `[A-Z0-9]` accepts. -/
def idChar (c : Char) : Bool :=
  ('A' ≤ c && c ≤ 'Z') || ('0' ≤ c && c ≤ '9')

/-- Global replacement of the mention pattern `<@[A-Z0-9]+>` by the empty
string, scanning left to right; `fuel` bounds the steps (the entry point
supplies enough). -/
def stripMentionsAux : Nat → List Char → List Char
  | 0, cs => cs
  | Nat.succ _, [] => []
  | Nat.succ n, c :: cs =>
    if c = '<' then
      match cs with
      | '@' :: cs2 =>
        match cs2.dropWhile idChar with
        | '>' :: cs3 =>
          if cs2.takeWhile idChar = [] then c :: stripMentionsAux n cs
          else stripMentionsAux n cs3
        | _ => c :: stripMentionsAux n cs
      | _ => c :: stripMentionsAux n cs
    else c :: stripMentionsAux n cs

/-- The mention-token removal of events.ts line 344 (global regex
replacement by the empty string). -/
def stripMentions (s : String) : String :=
  String.mk (stripMentionsAux (s.data.length + 1) s.data)

/-- Is `pat` an initial segment of the second list? -/
def isInitOf : List Char → List Char → Bool
  | [], _ => true
  | _ :: _, [] => false
  | a :: as, b :: bs => a == b && isInitOf as bs

/-- Does `pat` occur (contiguously) somewhere in the second list? -/
def occursIn (pat : List Char) : List Char → Bool
  | [] => isInitOf pat []
  | c :: cs => isInitOf pat (c :: cs) || occursIn pat cs

/-- JS `String.prototype.includes`. -/
def hasSubstring (s pat : String) : Bool := occursIn pat.data s.data

/-- The static misconfiguration reply of events.ts lines 385-390. -/
def difyConfigErrorText : String :=
  "❌ Difyの設定が不足しています。\n\n" ++
    "Vercelの環境変数に以下が設定されているか確認してください：\n" ++
    "• DIFY_API_URL\n" ++ "• DIFY_API_KEY\n" ++ "• DIFY_WORKFLOW_ID\n\n" ++
    "詳細はVercelのログを確認してください。"

/-- The catch block of events.ts lines 380-400 applied to the message of a
thrown `Error`: route on the message text to a misconfiguration reply, a
workflow-API failure reply, or the generic `❌ ` + message.  (The non-`Error`
branch at line 399 is unreachable in the model: everything the embedded code
throws is an `Error` with a message.) -/
def buildErrorMessage (m : String) : String :=
  if hasSubstring m "Dify configuration is missing" then difyConfigErrorText
  else if hasSubstring m "Dify API error" then
    "❌ Dify APIでエラーが発生しました。\n\n" ++ m ++
      "\n\nVercelのログで詳細を確認してください。"
  else "❌ " ++ m

/-- The static empty-prompt reply of events.ts line 350. -/
def emptyPromptText : String := "メッセージが空です。質問を入力してください。"

/-- The error-notification attempt of events.ts lines 379-409: post
`buildErrorMessage m` to the originating channel, threaded on the original
timestamp.  If this post itself fails the failure is only logged (line 408),
so the trace ends here regardless of the post's network outcome. -/
def catchPost (event : Json) (m : String) : List BotAction :=
  [BotAction.slackPost (jsField event "channel") (Json.str (buildErrorMessage m))
    (jsField event "ts")]

/-- The background continuation of events.ts lines 339-411 as its ordered list
of observable actions.  `w.slackResults i` is the network outcome of the
`i`-th `chat.postMessage` invocation of this run. -/
def pipelineRun (env : EnvConfig) (w : ExtWorld) (event : Json) : List BotAction :=
  match jsField event "text" with
  | some (Json.str rawText) =>
    let messageText := jsTrim (stripMentions rawText)
    if messageText = "" then
      BotAction.slackPost (jsField event "channel") (Json.str emptyPromptText)
          (jsField event "ts") ::
        (match postSlackResult env (w.slackResults 0) with
         | Except.ok _ => []
         | Except.error e => catchPost event e)
    else
      BotAction.difyCall messageText ::
        (match callDifyWorkflow env w messageText with
         | Except.error e => catchPost event e
         | Except.ok answer =>
           BotAction.slackPost (jsField event "channel") answer (jsField event "ts") ::
             (match postSlackResult env (w.slackResults 0) with
              | Except.ok _ => []
              | Except.error e => catchPost event e))
  | _ =>
    -- `event.text.replace` throws a TypeError when `event.text` is not a
    -- string; the catch block then posts the engine-determined message.
    catchPost event w.textTypeErrorMsg

/-! ## The request handler (events.ts lines 248-423) -/

/-- An inbound HTTP request as the handler consumes it: the method, the two
Slack headers (`x-slack-request-timestamp`, `x-slack-signature`), and the raw
body produced by `getRawBody` (the model takes the fully-accumulated stream;
a transport read error, which the outer catch turns into a 500, is outside the
model). -/
structure ApiRequest where
  method : String
  timestampHeader : Option String
  signatureHeader : Option String
  rawBody : String

/-- The handler (`export default async function handler`) as the chronological
list of its observable actions. -/
def handler (env : EnvConfig) (w : ExtWorld) (req : ApiRequest) : List BotAction :=
  if req.method ≠ "POST" then
    [BotAction.respond 405 (RespBody.jsonErr "Method Not Allowed")]
  else if req.rawBody = "" then
    [BotAction.respond 400 (RespBody.jsonErr "Empty request body")]
  else
    match parseJson req.rawBody with
    | none => [BotAction.respond 400 (RespBody.jsonErr "Invalid JSON")]
    | some body =>
      if body = Json.null then
        -- `body.type` on a parsed `null` throws; the outer catch (line 419)
        -- answers 500.
        [BotAction.respond 500 (RespBody.jsonErr "Internal server error")]
      else if jsField body "type" = some (Json.str "url_verification") then
        if optTruthy (jsField body "challenge") = false then
          [BotAction.respond 400 (RespBody.jsonErr "Missing challenge parameter")]
        else
          [BotAction.respond 200 (RespBody.send ((jsField body "challenge").getD Json.null))]
      else if strTruthy req.timestampHeader = false ∨ strTruthy req.signatureHeader = false then
        [BotAction.respond 401 (RespBody.jsonErr "Missing required headers")]
      else if strTruthy env.slackSigningSecret = false then
        [BotAction.respond 500 (RespBody.jsonErr "Server configuration error")]
      else if computeSlackSignature (env.slackSigningSecret.getD "")
          (req.timestampHeader.getD "") req.rawBody ≠ req.signatureHeader.getD "" then
        [BotAction.respond 401 (RespBody.jsonErr "Verification failed")]
      else
        let event := jsField body "event"
        if optTruthy event = true ∧ jsFieldOpt event "type" = some (Json.str "app_mention") then
          if jsFieldOpt event "subtype" = some (Json.str "bot_message") then
            [BotAction.respond 200 RespBody.empty]
          else
            BotAction.respond 200 RespBody.empty :: pipelineRun env w (event.getD Json.null)
        else [BotAction.respond 200 RespBody.empty]

/-- Is an action an invocation of an outbound API client (`callDifyWorkflow`
or `postSlackMessage`)? -/
def isOutbound : BotAction → Bool
  | BotAction.difyCall _ => true
  | BotAction.slackPost _ _ _ => true
  | BotAction.respond _ _ => false

/-- All eight words of a chaining state are 32-bit. -/
def stateBounded (st : Sha256State) : Prop :=
  st.a < 4294967296 ∧ st.b < 4294967296 ∧ st.c < 4294967296 ∧ st.d < 4294967296 ∧
    st.e < 4294967296 ∧ st.f < 4294967296 ∧ st.g < 4294967296 ∧ st.h < 4294967296

/-- The chaining state as a tuple of its eight words. -/
def statePack (st : Sha256State) : Nat × Nat × Nat × Nat × Nat × Nat × Nat × Nat :=
  (st.a, st.b, st.c, st.d, st.e, st.f, st.g, st.h)

/-- The body consisting of `n` letters `a` (an infinite family of distinct
raw bodies). -/
def repeatedBody (n : Nat) : String :=
  String.mk (List.replicate n 'a')

/-! ## Theorems -/

/-- SHA-256 test vector: the empty message (FIPS 180-4). -/
theorem sha256_empty_vector :
    stateHex (sha256StateOf []) =
      "e3b0c44298fc1c149afbf4c8996fb92427ae41e4649b934ca495991b7852b855" := rfl

/-- SHA-256 test vector: `"abc"` (FIPS 180-4). -/
theorem sha256_abc_vector :
    stateHex (sha256StateOf (utf8Bytes "abc")) =
      "ba7816bf8f01cfea414140de5dae2223b00361a396177a9cb410ff61f20015ad" := rfl

/-- HMAC-SHA256 test vector (the canonical `key` / quick-brown-fox pair). -/
theorem hmac_fox_vector :
    hmacSha256Hex "key" "The quick brown fox jumps over the lazy dog" =
      "f7bc83f430538424b13298e6aa6fb143ef4d59a14946175997479dbc2d1a3cd8" := rfl

/-- C5 counterexample: the claim's stated precedence for `data.data.outputs`
falls back to "the first string-valued field", which on
`data = obj [("data", obj [("outputs", obj [("a", str "  ")])])]` would yield
the two-space string `"  "`; the code instead skips blank strings in the
fallback loop and returns the compact JSON of the outputs object. -/
theorem C5_counterexample :
    extractAnswer (Json.obj [("data", Json.obj [("outputs",
        Json.obj [("a", Json.str "  ")])])]) = Json.str "\x7b\"a\":\"  \"\x7d" ∧
    extractAnswer (Json.obj [("data", Json.obj [("outputs",
        Json.obj [("a", Json.str "  ")])])]) ≠ Json.str "  " := by
  constructor
  · rfl
  · decide

/-- C5 (amended): the worked examples of the claim hold — `answer: "42"` is
returned directly, `data.outputs.text: "hi"` is found by the fixed field-name
precedence, and an unrecognized shape is returned JSON-stringified (with the
code's 2-space indentation) — and the final outputs fallback takes the first
string-valued field whose trimmed value is non-empty (not merely the first
string-valued field). -/
theorem C5_amended :
    extractAnswer (Json.obj [("answer", Json.str "42")]) = Json.str "42" ∧
    extractAnswer (Json.obj [("data", Json.obj [("outputs",
        Json.obj [("text", Json.str "hi")])])]) = Json.str "hi" ∧
    extractAnswer (Json.obj [("foo", Json.str "bar")]) =
      Json.str "\x7b\n  \"foo\": \"bar\"\n\x7d" ∧
    extractAnswer (Json.obj [("data", Json.obj [("outputs",
        Json.obj [("x", Json.str "  "), ("y", Json.str "hi2")])])]) = Json.str "hi2" := by
  refine ⟨rfl, rfl, rfl, rfl⟩

/-- C10 counterexample: with `answer` absent and `data` a plain (but empty)
string, the claim says extraction returns that string; the code's `if
(data.data)` truthiness test rejects the empty string, so extraction falls
through to the pretty-printed whole-payload fallback instead. -/
theorem C10_counterexample :
    extractAnswer (Json.obj [("data", Json.str "")]) =
      Json.str "\x7b\n  \"data\": \"\"\n\x7d" ∧
    extractAnswer (Json.obj [("data", Json.str "")]) ≠ Json.str "" := by
  constructor
  · rfl
  · decide

/-- C10 (amended): for every payload whose `answer` field is absent or falsy
and whose `data` field is a plain *non-empty* string, extraction returns that
string directly — a shape outside the spec's documented precedence. -/
theorem C10_amended (j : Json) (s : String)
    (hans : optTruthy (jsField j "answer") = false)
    (hdata : jsField j "data" = some (Json.str s)) (hs : s ≠ "") :
    extractAnswer j = Json.str s := by
  have hafter : afterAnswer j = Json.str s := by
    unfold afterAnswer
    rw [hdata]
    simp [jsTruthy, hs, dataBranch, jsField, dataStringBranch]
  unfold extractAnswer
  cases ha : jsField j "answer" with
  | none => exact hafter
  | some a =>
    rw [ha] at hans
    simp only [optTruthy] at hans
    simp [hans, hafter]

/-- C10 (amended) witness at `data = obj [("data", str "hi")]`. -/
theorem C10_amended_witness :
    optTruthy (jsField (Json.obj [("data", Json.str "hi")]) "answer") = false ∧
    jsField (Json.obj [("data", Json.str "hi")]) "data" = some (Json.str "hi") ∧
    extractAnswer (Json.obj [("data", Json.str "hi")]) = Json.str "hi" :=
  ⟨by decide, by decide,
    C10_amended (Json.obj [("data", Json.str "hi")]) "hi" (by decide) (by decide) (by decide)⟩
/-- C8: in the reply pipeline, once the mention tokens are stripped and the
text trimmed, an empty remainder makes the pipeline post the static
empty-prompt message to the originating channel, threaded on the original
timestamp, and stop without ever invoking the Workflow Client. -/
theorem C8_empty_message_static_reply (env : EnvConfig) (w : ExtWorld) (event : Json)
    (t : String) (ht : jsField event "text" = some (Json.str t))
    (he : jsTrim (stripMentions t) = "") :
    (pipelineRun env w event).head? =
      some (BotAction.slackPost (jsField event "channel") (Json.str emptyPromptText)
        (jsField event "ts")) ∧
    ∀ m, BotAction.difyCall m ∉ pipelineRun env w event := by
  have hrun : pipelineRun env w event =
      BotAction.slackPost (jsField event "channel") (Json.str emptyPromptText)
          (jsField event "ts") ::
        (match postSlackResult env (w.slackResults 0) with
         | Except.ok _ => []
         | Except.error e => catchPost event e) := by
    unfold pipelineRun
    rw [ht]
    simp [he]
  constructor
  · rw [hrun]
    rfl
  · intro m
    rw [hrun]
    cases hp : postSlackResult env (w.slackResults 0) with
    | ok u => simp
    | error e => simp [catchPost]

/-- C8 witness: a concrete event whose text is a bare mention. -/
theorem C8_empty_message_static_reply_witness :
    jsField (Json.obj [("type", Json.str "app_mention"), ("text", Json.str "<@U07AB12CD> "),
        ("channel", Json.str "C123"), ("ts", Json.str "123.456")]) "text" =
      some (Json.str "<@U07AB12CD> ") ∧
    jsTrim (stripMentions "<@U07AB12CD> ") = "" ∧
    (pipelineRun ⟨some "s", some "tok", none, none, none, none⟩
        ⟨DifyOutcome.fetchErr "x", fun _ => SlackOutcome.ok (Json.obj [("ok", Json.bool true)]), "e"⟩
        (Json.obj [("type", Json.str "app_mention"), ("text", Json.str "<@U07AB12CD> "),
          ("channel", Json.str "C123"), ("ts", Json.str "123.456")])).head? =
      some (BotAction.slackPost (some (Json.str "C123")) (Json.str emptyPromptText)
        (some (Json.str "123.456"))) :=
  ⟨by decide, by decide,
    (C8_empty_message_static_reply ⟨some "s", some "tok", none, none, none, none⟩
      ⟨DifyOutcome.fetchErr "x", fun _ => SlackOutcome.ok (Json.obj [("ok", Json.bool true)]), "e"⟩
      (Json.obj [("type", Json.str "app_mention"), ("text", Json.str "<@U07AB12CD> "),
        ("channel", Json.str "C123"), ("ts", Json.str "123.456")])
      "<@U07AB12CD> " (by decide) (by decide)).1⟩
/-- C9: once the cleaned mention text is non-empty, any failure of the
workflow call (step 3) or of the answer post (step 4) ends the pipeline with a
single attempt to post `buildErrorMessage` of the failure's message to the
originating channel and thread, after which nothing further happens (the trace
is the same whatever the outcome of that final post).  The constructed message
distinguishes the cases: a missing-Dify-variable failure always routes to the
static misconfiguration reply, while a workflow-API HTTP failure routes to the
`Dify APIでエラー` reply carrying the thrown message. -/
theorem C9_pipeline_error_reporting (env : EnvConfig) (w : ExtWorld) (event : Json)
    (t : String) (ht : jsField event "text" = some (Json.str t))
    (hne : jsTrim (stripMentions t) ≠ "") :
    (∀ e, callDifyWorkflow env w (jsTrim (stripMentions t)) = Except.error e →
      pipelineRun env w event =
        [BotAction.difyCall (jsTrim (stripMentions t)),
         BotAction.slackPost (jsField event "channel") (Json.str (buildErrorMessage e))
           (jsField event "ts")]) ∧
    (∀ ans e, callDifyWorkflow env w (jsTrim (stripMentions t)) = Except.ok ans →
      postSlackResult env (w.slackResults 0) = Except.error e →
      pipelineRun env w event =
        [BotAction.difyCall (jsTrim (stripMentions t)),
         BotAction.slackPost (jsField event "channel") ans (jsField event "ts"),
         BotAction.slackPost (jsField event "channel") (Json.str (buildErrorMessage e))
           (jsField event "ts")]) ∧
    (∀ e, strTruthy env.difyApiUrl = false →
      callDifyWorkflow env w (jsTrim (stripMentions t)) = Except.error e →
      buildErrorMessage e = difyConfigErrorText) ∧
    (missingDifyVars env = [] →
      w.dify = DifyOutcome.httpErr 500 "Internal Server Error" "boom" →
      callDifyWorkflow env w (jsTrim (stripMentions t)) =
        Except.error "Dify API error: 500 Internal Server Error - boom" ∧
      buildErrorMessage "Dify API error: 500 Internal Server Error - boom" =
        "❌ Dify APIでエラーが発生しました。\n\nDify API error: 500 Internal Server Error - boom\n\nVercelのログで詳細を確認してください。") := by
  refine ⟨?_, ?_, ?_, ?_⟩
  · intro e hdify
    unfold pipelineRun
    rw [ht]
    simp [hne, hdify, catchPost]
  · intro ans e hdify hpost
    unfold pipelineRun
    rw [ht]
    simp [hne, hdify, hpost, catchPost]
  · intro e hurl hdify
    unfold callDifyWorkflow missingDifyVars at hdify
    rw [hurl] at hdify
    cases hk : strTruthy env.difyApiKey <;> cases hw : strTruthy env.difyWorkflowId <;>
      rw [hk, hw] at hdify <;> simp at hdify <;> rw [← hdify] <;> decide
  · intro hmiss hdify
    unfold callDifyWorkflow
    rw [hmiss, hdify]
    exact ⟨by rfl, by rfl⟩

/-- C9 witness: a concrete misconfigured environment (no Dify variables at
all), where the workflow call fails before any fetch. -/
theorem C9_pipeline_error_reporting_witness :
    jsField (Json.obj [("text", Json.str "<@U07AB12CD> question"),
        ("channel", Json.str "C123"), ("ts", Json.str "123.456")]) "text" =
      some (Json.str "<@U07AB12CD> question") ∧
    jsTrim (stripMentions "<@U07AB12CD> question") ≠ "" ∧
    (∀ e, callDifyWorkflow ⟨some "s", some "tok", none, none, none, none⟩
        ⟨DifyOutcome.fetchErr "x", fun _ => SlackOutcome.ok (Json.obj [("ok", Json.bool true)]), "e"⟩
        (jsTrim (stripMentions "<@U07AB12CD> question")) = Except.error e →
      buildErrorMessage e = difyConfigErrorText) :=
  ⟨by decide, by decide,
    fun e he =>
      (C9_pipeline_error_reporting ⟨some "s", some "tok", none, none, none, none⟩
        ⟨DifyOutcome.fetchErr "x", fun _ => SlackOutcome.ok (Json.obj [("ok", Json.bool true)]), "e"⟩
        (Json.obj [("text", Json.str "<@U07AB12CD> question"),
          ("channel", Json.str "C123"), ("ts", Json.str "123.456")])
        "<@U07AB12CD> question" (by decide) (by decide)).2.2.1 e (by decide) he⟩
/-- Helper: under a well-formed non-handshake POST with both headers and the
signing secret present, a signature mismatch makes the handler answer 401
`Verification failed` and nothing else. -/
theorem handler_sig_mismatch (env : EnvConfig) (w : ExtWorld) (req : ApiRequest) (body : Json)
    (ts sig secret : String)
    (hm : req.method = "POST") (hb : req.rawBody ≠ "")
    (hp : parseJson req.rawBody = some body) (hnull : body ≠ Json.null)
    (hty : jsField body "type" ≠ some (Json.str "url_verification"))
    (hts : req.timestampHeader = some ts) (hts2 : ts ≠ "")
    (hsig : req.signatureHeader = some sig) (hsig2 : sig ≠ "")
    (hsec : env.slackSigningSecret = some secret) (hsec2 : secret ≠ "")
    (hne : computeSlackSignature secret ts req.rawBody ≠ sig) :
    handler env w req = [BotAction.respond 401 (RespBody.jsonErr "Verification failed")] := by
  unfold handler
  rw [hp]
  have h1 : ¬(strTruthy req.timestampHeader = false ∨ strTruthy req.signatureHeader = false) := by
    simp [hts, hsig, strTruthy, hts2, hsig2]
  simp [hm, hb, hnull, hty, h1, hsec, strTruthy, hsec2, hts, hts2, hsig, hsig2, hne]

/-- Helper: same premises with a matching signature: the handler proceeds to
event dispatch, whose every branch acknowledges with a bare 200 first. -/
theorem handler_sig_match (env : EnvConfig) (w : ExtWorld) (req : ApiRequest) (body : Json)
    (ts sig secret : String)
    (hm : req.method = "POST") (hb : req.rawBody ≠ "")
    (hp : parseJson req.rawBody = some body) (hnull : body ≠ Json.null)
    (hty : jsField body "type" ≠ some (Json.str "url_verification"))
    (hts : req.timestampHeader = some ts) (hts2 : ts ≠ "")
    (hsig : req.signatureHeader = some sig) (hsig2 : sig ≠ "")
    (hsec : env.slackSigningSecret = some secret) (hsec2 : secret ≠ "")
    (heq : computeSlackSignature secret ts req.rawBody = sig) :
    handler env w req =
      (if optTruthy (jsField body "event") = true ∧
          jsFieldOpt (jsField body "event") "type" = some (Json.str "app_mention") then
        if jsFieldOpt (jsField body "event") "subtype" = some (Json.str "bot_message") then
          [BotAction.respond 200 RespBody.empty]
        else
          BotAction.respond 200 RespBody.empty ::
            pipelineRun env w ((jsField body "event").getD Json.null)
      else [BotAction.respond 200 RespBody.empty]) := by
  unfold handler
  rw [hp]
  have h1 : ¬(strTruthy req.timestampHeader = false ∨ strTruthy req.signatureHeader = false) := by
    simp [hts, hsig, strTruthy, hts2, hsig2]
  simp [hm, hb, hnull, hty, h1, hsec, strTruthy, hsec2, hts, hts2, hsig, hsig2, heq]

/-- C1: for a well-formed non-handshake request (POST, non-empty valid-JSON
body, both headers and the signing secret present and non-empty), the handler
accepts exactly when `'v0=' + hex(HMAC-SHA256(secret, 'v0:' + ts + ':' +
rawBody))` — computed over the raw, unparsed body — is string-equal to the
`x-slack-signature` header: on mismatch the request terminates with 401 and no
further processing, and on match the handler proceeds (its first action is a
200 acknowledgment, never the 401). -/
theorem C1_signature_verifier_gate (env : EnvConfig) (w : ExtWorld) (req : ApiRequest)
    (body : Json) (ts sig secret : String)
    (hm : req.method = "POST") (hb : req.rawBody ≠ "")
    (hp : parseJson req.rawBody = some body) (hnull : body ≠ Json.null)
    (hty : jsField body "type" ≠ some (Json.str "url_verification"))
    (hts : req.timestampHeader = some ts) (hts2 : ts ≠ "")
    (hsig : req.signatureHeader = some sig) (hsig2 : sig ≠ "")
    (hsec : env.slackSigningSecret = some secret) (hsec2 : secret ≠ "") :
    (computeSlackSignature secret ts req.rawBody ≠ sig →
      handler env w req = [BotAction.respond 401 (RespBody.jsonErr "Verification failed")]) ∧
    (computeSlackSignature secret ts req.rawBody = sig →
      (handler env w req).head? = some (BotAction.respond 200 RespBody.empty)) := by
  constructor
  · intro hne
    exact handler_sig_mismatch env w req body ts sig secret
      hm hb hp hnull hty hts hts2 hsig hsig2 hsec hsec2 hne
  · intro heq
    rw [handler_sig_match env w req body ts sig secret
      hm hb hp hnull hty hts hts2 hsig hsig2 hsec hsec2 heq]
    by_cases hev : optTruthy (jsField body "event") = true ∧
        jsFieldOpt (jsField body "event") "type" = some (Json.str "app_mention")
    · by_cases hsub : jsFieldOpt (jsField body "event") "subtype" = some (Json.str "bot_message")
      · simp [hev, hsub]
      · simp [hev, hsub]
    · simp [hev]

/-- C1 witness: a concrete non-handshake request (the implications of the
conclusion are then available at a signature header that cannot match, since
every computed signature starts with `v0=`). -/
theorem C1_signature_verifier_gate_witness :
    parseJson "\x7b\"type\":\"event_callback\"\x7d" =
      some (Json.obj [("type", Json.str "event_callback")]) ∧
    ((computeSlackSignature "sec" "123" "\x7b\"type\":\"event_callback\"\x7d" ≠ "nope" →
      handler ⟨some "sec", none, none, none, none, none⟩
        ⟨DifyOutcome.fetchErr "x", fun _ => SlackOutcome.fetchErr "y", "e"⟩
        ⟨"POST", some "123", some "nope", "\x7b\"type\":\"event_callback\"\x7d"⟩ =
        [BotAction.respond 401 (RespBody.jsonErr "Verification failed")]) ∧
    (computeSlackSignature "sec" "123" "\x7b\"type\":\"event_callback\"\x7d" = "nope" →
      (handler ⟨some "sec", none, none, none, none, none⟩
        ⟨DifyOutcome.fetchErr "x", fun _ => SlackOutcome.fetchErr "y", "e"⟩
        ⟨"POST", some "123", some "nope", "\x7b\"type\":\"event_callback\"\x7d"⟩).head? =
        some (BotAction.respond 200 RespBody.empty))) :=
  ⟨by decide,
    C1_signature_verifier_gate ⟨some "sec", none, none, none, none, none⟩
      ⟨DifyOutcome.fetchErr "x", fun _ => SlackOutcome.fetchErr "y", "e"⟩
      ⟨"POST", some "123", some "nope", "\x7b\"type\":\"event_callback\"\x7d"⟩
      (Json.obj [("type", Json.str "event_callback")]) "123" "nope" "sec"
      rfl (by decide) (by decide) (by decide) (by decide) rfl (by decide) rfl (by decide)
      rfl (by decide)⟩

/-- C7: a well-formed non-handshake POST request that is missing the
`x-slack-signature` header or the `x-slack-request-timestamp` header
terminates with 401 `Missing required headers`, and the Workflow Client is
never invoked. -/
theorem C7_missing_headers_401 (env : EnvConfig) (w : ExtWorld) (req : ApiRequest)
    (body : Json)
    (hm : req.method = "POST") (hb : req.rawBody ≠ "")
    (hp : parseJson req.rawBody = some body) (hnull : body ≠ Json.null)
    (hty : jsField body "type" ≠ some (Json.str "url_verification"))
    (hmiss : req.signatureHeader = none ∨ req.timestampHeader = none) :
    handler env w req = [BotAction.respond 401 (RespBody.jsonErr "Missing required headers")] ∧
    ∀ m, BotAction.difyCall m ∉ handler env w req := by
  have hrun : handler env w req =
      [BotAction.respond 401 (RespBody.jsonErr "Missing required headers")] := by
    unfold handler
    rw [hp]
    rcases hmiss with h | h <;> simp [hm, hb, hnull, hty, h, strTruthy]
  exact ⟨hrun, by intro m; rw [hrun]; simp⟩

/-- C7 witness: a concrete POST event callback with no signature header. -/
theorem C7_missing_headers_401_witness :
    parseJson "\x7b\"type\":\"event_callback\"\x7d" =
      some (Json.obj [("type", Json.str "event_callback")]) ∧
    handler ⟨some "sec", some "tok", none, none, none, none⟩
      ⟨DifyOutcome.fetchErr "x", fun _ => SlackOutcome.fetchErr "y", "e"⟩
      ⟨"POST", some "123", none, "\x7b\"type\":\"event_callback\"\x7d"⟩ =
      [BotAction.respond 401 (RespBody.jsonErr "Missing required headers")] :=
  ⟨by decide,
    (C7_missing_headers_401 ⟨some "sec", some "tok", none, none, none, none⟩
      ⟨DifyOutcome.fetchErr "x", fun _ => SlackOutcome.fetchErr "y", "e"⟩
      ⟨"POST", some "123", none, "\x7b\"type\":\"event_callback\"\x7d"⟩
      (Json.obj [("type", Json.str "event_callback")])
      rfl (by decide) (by decide) (by decide) (by decide) (Or.inl rfl)).1⟩
/-- C2 counterexample: a handshake body whose `challenge` field is present but
empty.  The claim says a present `challenge` always yields a 200 echoing the
challenge; the code's truthiness test `if (!body.challenge)` rejects the empty
string and answers 400 `Missing challenge parameter` instead. -/
theorem C2_counterexample :
    jsField (Json.obj [("type", Json.str "url_verification"), ("challenge", Json.str "")])
      "challenge" = some (Json.str "") ∧
    parseJson "\x7b\"type\":\"url_verification\",\"challenge\":\"\"\x7d" =
      some (Json.obj [("type", Json.str "url_verification"), ("challenge", Json.str "")]) ∧
    handler ⟨some "sec", some "tok", none, none, none, none⟩
      ⟨DifyOutcome.fetchErr "x", fun _ => SlackOutcome.fetchErr "y", "e"⟩
      ⟨"POST", some "123", some "v0=sig", "\x7b\"type\":\"url_verification\",\"challenge\":\"\"\x7d"⟩ =
      [BotAction.respond 400 (RespBody.jsonErr "Missing challenge parameter")] ∧
    handler ⟨some "sec", some "tok", none, none, none, none⟩
      ⟨DifyOutcome.fetchErr "x", fun _ => SlackOutcome.fetchErr "y", "e"⟩
      ⟨"POST", some "123", some "v0=sig", "\x7b\"type\":\"url_verification\",\"challenge\":\"\"\x7d"⟩ ≠
      [BotAction.respond 200 (RespBody.send (Json.str ""))] := by
  refine ⟨rfl, rfl, rfl, ?_⟩
  decide

/-- C2 (amended): for every POST request whose JSON body has
`type == "url_verification"` and a present *truthy* (non-empty string)
`challenge`, the handler responds 200 with the raw challenge value, regardless
of the presence, absence or validity of the signature and timestamp headers
and of the signing secret (the environment and headers are arbitrary here);
a present but empty challenge yields 400. -/
theorem C2_url_verification_echo (env : EnvConfig) (w : ExtWorld) (req : ApiRequest)
    (body : Json) (c : String)
    (hm : req.method = "POST") (hb : req.rawBody ≠ "")
    (hp : parseJson req.rawBody = some body)
    (hty : jsField body "type" = some (Json.str "url_verification"))
    (hch : jsField body "challenge" = some (Json.str c)) (hc : c ≠ "") :
    handler env w req = [BotAction.respond 200 (RespBody.send (Json.str c))] := by
  have hnull : body ≠ Json.null := by
    intro h
    rw [h] at hty
    simp [jsField] at hty
  unfold handler
  rw [hp]
  simp [hm, hb, hnull, hty, hch, optTruthy, jsTruthy, hc]

/-- C2 (amended) witness: the spec's own example, with no headers at all and
no signing secret in the environment. -/
theorem C2_url_verification_echo_witness :
    parseJson "\x7b\"type\":\"url_verification\",\"challenge\":\"abc123\"\x7d" =
      some (Json.obj [("type", Json.str "url_verification"),
        ("challenge", Json.str "abc123")]) ∧
    handler ⟨none, none, none, none, none, none⟩
      ⟨DifyOutcome.fetchErr "x", fun _ => SlackOutcome.fetchErr "y", "e"⟩
      ⟨"POST", none, none, "\x7b\"type\":\"url_verification\",\"challenge\":\"abc123\"\x7d"⟩ =
      [BotAction.respond 200 (RespBody.send (Json.str "abc123"))] :=
  ⟨by decide,
    C2_url_verification_echo ⟨none, none, none, none, none, none⟩
      ⟨DifyOutcome.fetchErr "x", fun _ => SlackOutcome.fetchErr "y", "e"⟩
      ⟨"POST", none, none, "\x7b\"type\":\"url_verification\",\"challenge\":\"abc123\"\x7d"⟩
      (Json.obj [("type", Json.str "url_verification"), ("challenge", Json.str "abc123")])
      "abc123" rfl (by decide) (by decide) (by decide) (by decide) (by decide)⟩

/-- C3: for a verified app-mention request, the 200 acknowledgment is the
handler's first action, and every outbound call (workflow API or chat API)
occurs strictly after it in the trace. -/
theorem C3_ack_before_outbound (env : EnvConfig) (w : ExtWorld) (req : ApiRequest)
    (body ev : Json) (ts sig secret : String)
    (hm : req.method = "POST") (hb : req.rawBody ≠ "")
    (hp : parseJson req.rawBody = some body) (hnull : body ≠ Json.null)
    (hty : jsField body "type" ≠ some (Json.str "url_verification"))
    (hts : req.timestampHeader = some ts) (hts2 : ts ≠ "")
    (hsig : req.signatureHeader = some sig) (hsig2 : sig ≠ "")
    (hsec : env.slackSigningSecret = some secret) (hsec2 : secret ≠ "")
    (heq : computeSlackSignature secret ts req.rawBody = sig)
    (hev : jsField body "event" = some ev) (hevt : jsTruthy ev = true)
    (hevty : jsField ev "type" = some (Json.str "app_mention")) :
    (handler env w req).head? = some (BotAction.respond 200 RespBody.empty) ∧
    ∀ i a, (handler env w req).get? i = some a → isOutbound a = true → 0 < i := by
  have hcond : optTruthy (jsField body "event") = true ∧
      jsFieldOpt (jsField body "event") "type" = some (Json.str "app_mention") := by
    rw [hev]
    exact ⟨by simp [optTruthy, hevt], by simp [jsFieldOpt, hevty]⟩
  have key : ∃ rest, handler env w req = BotAction.respond 200 RespBody.empty :: rest := by
    rw [handler_sig_match env w req body ts sig secret
      hm hb hp hnull hty hts hts2 hsig hsig2 hsec hsec2 heq]
    by_cases hsub : jsFieldOpt (jsField body "event") "subtype" = some (Json.str "bot_message")
    · exact ⟨[], by simp [hcond, hsub]⟩
    · exact ⟨pipelineRun env w ((jsField body "event").getD Json.null), by simp [hcond, hsub]⟩
  obtain ⟨rest, hrest⟩ := key
  constructor
  · rw [hrest]
    rfl
  · intro i a hget hout
    cases i with
    | zero =>
      rw [hrest] at hget
      simp at hget
      rw [← hget] at hout
      simp [isOutbound] at hout
    | succ n => exact Nat.succ_pos n

/-- C3 witness: a concrete verified app-mention request (signature computed
with secret `sec` and timestamp `123` over the raw body). -/
theorem C3_ack_before_outbound_witness :
    computeSlackSignature "sec" "123"
      "\x7b\"type\":\"event_callback\",\"event\":\x7b\"type\":\"app_mention\",\"text\":\"<@U07AB12CD> hello\",\"channel\":\"C123\",\"ts\":\"111.222\"\x7d\x7d" =
      "v0=aa2c410a031c779ca4149fa963ca6ecef75a6ce8e7e7f05b33c56ff55a36ec8c" ∧
    (handler ⟨some "sec", some "tok", some "https://api.dify.ai", some "k", some "wf1", none⟩
      ⟨DifyOutcome.ok (Json.obj [("answer", Json.str "42")]),
        fun _ => SlackOutcome.ok (Json.obj [("ok", Json.bool true)]), "e"⟩
      ⟨"POST", some "123",
        some "v0=aa2c410a031c779ca4149fa963ca6ecef75a6ce8e7e7f05b33c56ff55a36ec8c",
        "\x7b\"type\":\"event_callback\",\"event\":\x7b\"type\":\"app_mention\",\"text\":\"<@U07AB12CD> hello\",\"channel\":\"C123\",\"ts\":\"111.222\"\x7d\x7d"⟩).head? =
      some (BotAction.respond 200 RespBody.empty) :=
  ⟨by rfl,
    (C3_ack_before_outbound
      ⟨some "sec", some "tok", some "https://api.dify.ai", some "k", some "wf1", none⟩
      ⟨DifyOutcome.ok (Json.obj [("answer", Json.str "42")]),
        fun _ => SlackOutcome.ok (Json.obj [("ok", Json.bool true)]), "e"⟩
      ⟨"POST", some "123",
        some "v0=aa2c410a031c779ca4149fa963ca6ecef75a6ce8e7e7f05b33c56ff55a36ec8c",
        "\x7b\"type\":\"event_callback\",\"event\":\x7b\"type\":\"app_mention\",\"text\":\"<@U07AB12CD> hello\",\"channel\":\"C123\",\"ts\":\"111.222\"\x7d\x7d"⟩
      (Json.obj [("type", Json.str "event_callback"), ("event", Json.obj
        [("type", Json.str "app_mention"), ("text", Json.str "<@U07AB12CD> hello"),
         ("channel", Json.str "C123"), ("ts", Json.str "111.222")])])
      (Json.obj [("type", Json.str "app_mention"), ("text", Json.str "<@U07AB12CD> hello"),
        ("channel", Json.str "C123"), ("ts", Json.str "111.222")])
      "123" "v0=aa2c410a031c779ca4149fa963ca6ecef75a6ce8e7e7f05b33c56ff55a36ec8c" "sec"
      rfl (by decide) (by decide) (by decide) (by decide) rfl (by decide) rfl (by decide)
      rfl (by decide) (by rfl) (by decide) (by decide) (by decide)).1⟩
/-- C4: a verified app-mention request whose event carries
`subtype == "bot_message"` is answered with a bare 200 acknowledgment and
nothing else: neither the Workflow Client (`callDifyWorkflow`) nor the
Message Poster (`postSlackMessage`) is ever invoked. -/
theorem C4_bot_message_ignored (env : EnvConfig) (w : ExtWorld) (req : ApiRequest)
    (body ev : Json) (ts sig secret : String)
    (hm : req.method = "POST") (hb : req.rawBody ≠ "")
    (hp : parseJson req.rawBody = some body) (hnull : body ≠ Json.null)
    (hty : jsField body "type" ≠ some (Json.str "url_verification"))
    (hts : req.timestampHeader = some ts) (hts2 : ts ≠ "")
    (hsig : req.signatureHeader = some sig) (hsig2 : sig ≠ "")
    (hsec : env.slackSigningSecret = some secret) (hsec2 : secret ≠ "")
    (heq : computeSlackSignature secret ts req.rawBody = sig)
    (hev : jsField body "event" = some ev) (hevt : jsTruthy ev = true)
    (hevty : jsField ev "type" = some (Json.str "app_mention"))
    (hsub : jsField ev "subtype" = some (Json.str "bot_message")) :
    handler env w req = [BotAction.respond 200 RespBody.empty] ∧
    (∀ m, BotAction.difyCall m ∉ handler env w req) ∧
    (∀ ch txt tts, BotAction.slackPost ch txt tts ∉ handler env w req) := by
  have hrun : handler env w req = [BotAction.respond 200 RespBody.empty] := by
    rw [handler_sig_match env w req body ts sig secret
      hm hb hp hnull hty hts hts2 hsig hsig2 hsec hsec2 heq]
    have hcond : optTruthy (jsField body "event") = true ∧
        jsFieldOpt (jsField body "event") "type" = some (Json.str "app_mention") := by
      rw [hev]
      exact ⟨by simp [optTruthy, hevt], by simp [jsFieldOpt, hevty]⟩
    simp [hcond, hev, jsFieldOpt, hsub]
  refine ⟨hrun, ?_, ?_⟩
  · intro m
    rw [hrun]
    simp
  · intro ch txt tts
    rw [hrun]
    simp

/-- C4 witness: a concrete verified bot-message app-mention request. -/
theorem C4_bot_message_ignored_witness :
    computeSlackSignature "sec" "123"
      "\x7b\"type\":\"event_callback\",\"event\":\x7b\"type\":\"app_mention\",\"subtype\":\"bot_message\",\"text\":\"x\",\"channel\":\"C123\",\"ts\":\"111.222\"\x7d\x7d" =
      "v0=1b2a57984aa874fe2c7257cf9b8e8a247123cb4eb285603bbd5d92c1a7e546d3" ∧
    handler ⟨some "sec", some "tok", some "https://api.dify.ai", some "k", some "wf1", none⟩
      ⟨DifyOutcome.ok (Json.obj [("answer", Json.str "42")]),
        fun _ => SlackOutcome.ok (Json.obj [("ok", Json.bool true)]), "e"⟩
      ⟨"POST", some "123",
        some "v0=1b2a57984aa874fe2c7257cf9b8e8a247123cb4eb285603bbd5d92c1a7e546d3",
        "\x7b\"type\":\"event_callback\",\"event\":\x7b\"type\":\"app_mention\",\"subtype\":\"bot_message\",\"text\":\"x\",\"channel\":\"C123\",\"ts\":\"111.222\"\x7d\x7d"⟩ =
      [BotAction.respond 200 RespBody.empty] :=
  ⟨by rfl,
    (C4_bot_message_ignored
      ⟨some "sec", some "tok", some "https://api.dify.ai", some "k", some "wf1", none⟩
      ⟨DifyOutcome.ok (Json.obj [("answer", Json.str "42")]),
        fun _ => SlackOutcome.ok (Json.obj [("ok", Json.bool true)]), "e"⟩
      ⟨"POST", some "123",
        some "v0=1b2a57984aa874fe2c7257cf9b8e8a247123cb4eb285603bbd5d92c1a7e546d3",
        "\x7b\"type\":\"event_callback\",\"event\":\x7b\"type\":\"app_mention\",\"subtype\":\"bot_message\",\"text\":\"x\",\"channel\":\"C123\",\"ts\":\"111.222\"\x7d\x7d"⟩
      (Json.obj [("type", Json.str "event_callback"), ("event", Json.obj
        [("type", Json.str "app_mention"), ("subtype", Json.str "bot_message"),
         ("text", Json.str "x"), ("channel", Json.str "C123"), ("ts", Json.str "111.222")])])
      (Json.obj [("type", Json.str "app_mention"), ("subtype", Json.str "bot_message"),
        ("text", Json.str "x"), ("channel", Json.str "C123"), ("ts", Json.str "111.222")])
      "123" "v0=1b2a57984aa874fe2c7257cf9b8e8a247123cb4eb285603bbd5d92c1a7e546d3" "sec"
      rfl (by decide) (by decide) (by decide) (by decide) rfl (by decide) rfl (by decide)
      rfl (by decide) (by rfl) (by decide) (by decide) (by decide) (by decide)).1⟩
/-- A word sum modulo 2^32 is 32-bit. -/
theorem wadd_lt (a b : Nat) : wadd a b < 4294967296 :=
  Nat.mod_lt _ (by norm_num)

/-- The compression function always returns a 32-bit state. -/
theorem compressBlock_bounded (st : Sha256State) (blk : List Nat) :
    stateBounded (compressBlock st blk) := by
  refine ⟨?_, ?_, ?_, ?_, ?_, ?_, ?_, ?_⟩ <;> simp [compressBlock] <;> exact wadd_lt _ _

/-- Folding the compression function preserves 32-bit states. -/
theorem foldl_compress_bounded (blocks : List (List Nat)) (st : Sha256State)
    (h : stateBounded st) : stateBounded (blocks.foldl compressBlock st) := by
  induction blocks generalizing st with
  | nil => exact h
  | cons b bs ih =>
    simp only [List.foldl]
    exact ih (compressBlock st b) (compressBlock_bounded st b)

/-- Every SHA-256 chaining state is 32-bit. -/
theorem sha256StateOf_bounded (msg : List Nat) : stateBounded (sha256StateOf msg) := by
  unfold sha256StateOf
  exact foldl_compress_bounded _ _ (by unfold stateBounded; decide)

/-- Every HMAC-SHA256 state is 32-bit. -/
theorem hmacStateOf_bounded (key msg : String) : stateBounded (hmacStateOf key msg) :=
  sha256StateOf_bounded _

/-- Packing a state into its word tuple is injective. -/
theorem statePack_inj {s1 s2 : Sha256State} (h : statePack s1 = statePack s2) : s1 = s2 := by
  cases s1
  cases s2
  simp only [statePack, Prod.mk.injEq] at h
  obtain ⟨h1, h2, h3, h4, h5, h6, h7, h8⟩ := h
  simp [h1, h2, h3, h4, h5, h6, h7, h8]

/-- A computed signature is never the empty string (it starts with `v0=`). -/
theorem computeSlackSignature_ne_empty (secret ts rawBody : String) :
    computeSlackSignature secret ts rawBody ≠ "" := by
  unfold computeSlackSignature
  intro h
  have hd := congrArg String.data h
  rw [String.data_append] at hd
  exact absurd hd (by simp)

/-- Distinct repetition counts give distinct bodies. -/
theorem repeatedBody_injective {m n : Nat} (h : repeatedBody m = repeatedBody n) : m = n := by
  have := congrArg (fun s => s.data.length) h
  simpa [repeatedBody] using this

/-- C6 counterexample: the claim, read literally, asserts that for every
secret, timestamp and signature no two distinct raw bodies can both verify —
i.e. that HMAC-SHA256 is injective on bodies.  That is false by pigeonhole:
the signature determines only the 8-word (2^256-valued) chaining state, while
the bodies `"a"^n` are infinitely many, so two distinct bodies share a digest
and a previously valid signature verifies for both. -/
theorem C6_counterexample :
    ¬ (∀ secret ts sig b1 b2 : String, b1 ≠ b2 →
        computeSlackSignature secret ts b1 = sig →
        computeSlackSignature secret ts b2 ≠ sig) := by
  intro hclaim
  have hmaps : Set.MapsTo
      (fun n => statePack (hmacStateOf "" ("v0:" ++ "" ++ ":" ++ repeatedBody n)))
      (Set.univ : Set Nat)
      (Set.Iio 4294967296 ×ˢ Set.Iio 4294967296 ×ˢ Set.Iio 4294967296 ×ˢ
        Set.Iio 4294967296 ×ˢ Set.Iio 4294967296 ×ˢ Set.Iio 4294967296 ×ˢ
        Set.Iio 4294967296 ×ˢ Set.Iio 4294967296) := by
    intro n _
    have hb := hmacStateOf_bounded "" ("v0:" ++ "" ++ ":" ++ repeatedBody n)
    obtain ⟨h1, h2, h3, h4, h5, h6, h7, h8⟩ := hb
    simp [statePack, Set.mem_prod, Set.mem_Iio]
    exact ⟨h1, h2, h3, h4, h5, h6, h7, h8⟩
  have hfin : (Set.Iio 4294967296 ×ˢ Set.Iio 4294967296 ×ˢ Set.Iio 4294967296 ×ˢ
      Set.Iio 4294967296 ×ˢ Set.Iio 4294967296 ×ˢ Set.Iio 4294967296 ×ˢ
      Set.Iio 4294967296 ×ˢ Set.Iio 4294967296 :
      Set (Nat × Nat × Nat × Nat × Nat × Nat × Nat × Nat)).Finite :=
    (Set.finite_Iio _).prod ((Set.finite_Iio _).prod ((Set.finite_Iio _).prod
      ((Set.finite_Iio _).prod ((Set.finite_Iio _).prod ((Set.finite_Iio _).prod
        ((Set.finite_Iio _).prod (Set.finite_Iio _)))))))
  obtain ⟨m, -, n, -, hmn, hfeq⟩ :=
    Set.infinite_univ.exists_ne_map_eq_of_mapsTo hmaps hfin
  have hstate : hmacStateOf "" ("v0:" ++ "" ++ ":" ++ repeatedBody m) =
      hmacStateOf "" ("v0:" ++ "" ++ ":" ++ repeatedBody n) := statePack_inj hfeq
  have hsig : computeSlackSignature "" "" (repeatedBody m) =
      computeSlackSignature "" "" (repeatedBody n) := by
    unfold computeSlackSignature hmacSha256Hex
    rw [hstate]
  have hbodies : repeatedBody m ≠ repeatedBody n := fun hEq => hmn (repeatedBody_injective hEq)
  exact hclaim "" "" (computeSlackSignature "" "" (repeatedBody m))
    (repeatedBody m) (repeatedBody n) hbodies rfl hsig.symm

/-- C6 (amended): tampering is rejected whenever it changes the digest — for a
well-formed non-handshake POST carrying a signature previously valid for body
`b1`, a different raw body whose HMAC-SHA256 digest differs from `b1`'s fails
verification with a terminal 401.  (By `C6_counterexample` the digest
hypothesis cannot be dropped: HMAC collisions exist, though none is
feasibly constructible.) -/
theorem C6_tampered_body_rejected (env : EnvConfig) (w : ExtWorld) (req2 : ApiRequest)
    (body2 : Json) (ts secret b1 : String)
    (hm : req2.method = "POST") (hb : req2.rawBody ≠ "")
    (hp : parseJson req2.rawBody = some body2) (hnull : body2 ≠ Json.null)
    (hty : jsField body2 "type" ≠ some (Json.str "url_verification"))
    (hts : req2.timestampHeader = some ts) (hts2 : ts ≠ "")
    (hsig : req2.signatureHeader = some (computeSlackSignature secret ts b1))
    (hsec : env.slackSigningSecret = some secret) (hsec2 : secret ≠ "")
    (hdiff : computeSlackSignature secret ts req2.rawBody ≠ computeSlackSignature secret ts b1) :
    handler env w req2 = [BotAction.respond 401 (RespBody.jsonErr "Verification failed")] :=
  handler_sig_mismatch env w req2 body2 ts (computeSlackSignature secret ts b1) secret
    hm hb hp hnull hty hts hts2 hsig (computeSlackSignature_ne_empty secret ts b1)
    hsec hsec2 hdiff
/-- C6 (amended) witness: the signature valid for raw body `{"a":1}` is
rejected on the tampered raw body `{"a":2}`, whose digest differs. -/
theorem C6_tampered_body_rejected_witness :
    computeSlackSignature "sec" "123" "\x7b\"a\":2\x7d" ≠
      computeSlackSignature "sec" "123" "\x7b\"a\":1\x7d" ∧
    handler ⟨some "sec", some "tok", none, none, none, none⟩
      ⟨DifyOutcome.fetchErr "x", fun _ => SlackOutcome.fetchErr "y", "e"⟩
      ⟨"POST", some "123", some (computeSlackSignature "sec" "123" "\x7b\"a\":1\x7d"),
        "\x7b\"a\":2\x7d"⟩ =
      [BotAction.respond 401 (RespBody.jsonErr "Verification failed")] :=
  ⟨by decide,
    C6_tampered_body_rejected ⟨some "sec", some "tok", none, none, none, none⟩
      ⟨DifyOutcome.fetchErr "x", fun _ => SlackOutcome.fetchErr "y", "e"⟩
      ⟨"POST", some "123", some (computeSlackSignature "sec" "123" "\x7b\"a\":1\x7d"),
        "\x7b\"a\":2\x7d"⟩
      (Json.obj [("a", Json.num 2)]) "123" "sec" "\x7b\"a\":1\x7d"
      rfl (by decide) (by decide) (by decide) (by decide) rfl (by decide) rfl
      rfl (by decide) (by decide)⟩
